import Mathlib

/-!
Verification of the tinyusb EHCI host-controller driver (src/tinyusb/host/ehci/ehci.c)
against its natural-language specification.

The driver's data structures (queue heads, queue-element transfer descriptors,
link words) are shallowly embedded: every bit-field of the C structures that the
verified code reads or writes becomes a Nat-valued field, 32-bit link words are
kept as raw Nat words (the C type is a union of a uint32 address with
terminate/type bit-fields), and machine arithmetic is made explicit with mod 2^32.
Pointers into the fixed per-device pools are modelled as pool indices together
with explicit address maps where the C code does pointer arithmetic.

Enumeration constants live in headers that are not part of the given sources;
they are modelled from the spec, which states that the data-structure layout
matches EHCI section 3 bit-for-bit, and from the USB 2.0 endpoint descriptor
encoding that the driver compares against.
-/

/-- 2^32, the modulus of the driver's uint32 arithmetic. -/
def UINT32_MOD : Nat := 4294967296

/-- Modelled from the spec: qTD PID encoding of EHCI section 3.5 (OUT token). -/
def EHCI_PID_OUT : Nat := 0

/-- Modelled from the spec: qTD PID encoding of EHCI section 3.5 (IN token). -/
def EHCI_PID_IN : Nat := 1

/-- Modelled from the spec: qTD PID encoding of EHCI section 3.5 (SETUP token). -/
def EHCI_PID_SETUP : Nat := 2

/-- Modelled from the spec: link-word element-type tag for a queue head (EHCI section 3). -/
def EHCI_QUEUE_ELEMENT_QHD : Nat := 1

/-- Modelled from the spec: USB endpoint transfer-type code for control endpoints. -/
def TUSB_XFER_CONTROL : Nat := 0

/-- Modelled from the spec: USB endpoint transfer-type code for isochronous endpoints. -/
def TUSB_XFER_ISOCHRONOUS : Nat := 1

/-- Modelled from the spec: USB endpoint transfer-type code for bulk endpoints. -/
def TUSB_XFER_BULK : Nat := 2

/-- Modelled from the spec: USB endpoint transfer-type code for interrupt endpoints. -/
def TUSB_XFER_INTERRUPT : Nat := 3

/-- Modelled from the spec: speed code for full speed. -/
def TUSB_SPEED_FULL : Nat := 0

/-- Modelled from the spec: speed code for low speed. -/
def TUSB_SPEED_LOW : Nat := 1

/-- Modelled from the spec: speed code for high speed. -/
def TUSB_SPEED_HIGH : Nat := 2

/-- Modelled from the spec: device state for an unplugged device slot. -/
def TUSB_DEVICE_STATE_UNPLUG : Nat := 0

/-- Modelled from the spec: per-device QHD pool capacity (a configuration
constant whose header is not among the given sources; no claim depends on its
exact value). -/
def EHCI_MAX_QHD : Nat := 8

/-- Modelled from the spec: per-device qTD pool capacity (a configuration
constant whose header is not among the given sources; no claim depends on its
exact value). -/
def EHCI_MAX_QTD : Nat := 8

/-- Modelled from the spec: number of device slots, bounded by HOST_DEVICE_MAX
(a configuration constant; no claim depends on its exact value). -/
def TUSB_CFG_HOST_DEVICE_MAX : Nat := 3

/-- Error codes of the driver (tusb_error_t); only the constructors the
verified functions return are modelled. -/
inductive tusb_error_t where
  | TUSB_ERROR_NONE
  | TUSB_ERROR_INVALID_PARA
  | TUSB_ERROR_EHCI_NOT_ENOUGH_QTD
  | TUSB_ERROR_OSAL_TIMEOUT
deriving DecidableEq, Repr

open tusb_error_t

/-- align32 macro: mask a 32-bit link word down to its 32-byte-aligned address
part (clears the terminate bit and the element-type tag). -/
def align32 (w : Nat) : Nat := w &&& 0xFFFFFFE0

/-- align4k macro: mask a 32-bit address down to its 4-KiB page base. -/
def align4k (w : Nat) : Nat := w &&& 0xFFFFF000

/-- Terminate bit (bit 0) of a link word. -/
def link_terminate (w : Nat) : Nat := w &&& 1

/-- Element-type tag (bits 2..1) of a link word. -/
def link_type (w : Nat) : Nat := (w >>> 1) &&& 3

/-- Bit-field write of the element-type tag of a link word, leaving the other
bits of the word unchanged. -/
def link_set_type (w t : Nat) : Nat := (w &&& 0xFFFFFFF9) ||| (t <<< 1)

/-- Queue element transfer descriptor (ehci_qtd_t). The next and alternate
link unions are kept as raw 32-bit words; every status bit-field that ehci.c
reads or writes is a Nat field. -/
structure ehci_qtd_t where
  next : Nat
  alternate : Nat
  -- status word bit-fields
  pingstate_err : Nat
  non_hs_split_state : Nat
  non_hs_period_missed_uframe : Nat
  xact_err : Nat
  babble_err : Nat
  buffer_err : Nat
  halted : Nat
  active : Nat
  pid : Nat
  cerr : Nat
  current_page : Nat
  int_on_complete : Nat
  total_bytes : Nat
  data_toggle : Nat
  -- five 4-KiB buffer page pointers
  buffer : Fin 5 → Nat
  -- driver-private trailer
  used : Nat
deriving DecidableEq

/-- The all-zero qTD produced by memclr_. -/
def ehci_qtd_zero : ehci_qtd_t :=
  { next := 0, alternate := 0, pingstate_err := 0, non_hs_split_state := 0,
    non_hs_period_missed_uframe := 0, xact_err := 0, babble_err := 0,
    buffer_err := 0, halted := 0, active := 0, pid := 0, cerr := 0,
    current_page := 0, int_on_complete := 0, total_bytes := 0,
    data_toggle := 0, buffer := fun _ => 0, used := 0 }

/-- The buffer-page loop of qtd_init: for i = 1..4,
buffer[i] |= align4k(buffer[i-1]) + 4096, in uint32 arithmetic.
The parameter n is the upper loop bound already performed (the call with n
fills pages 1..n). -/
def qtd_fill_buffers (b : Fin 5 → Nat) : Nat → (Fin 5 → Nat)
  | 0 => b
  | n + 1 =>
      let b' := qtd_fill_buffers b n
      if h : n + 1 < 5 then
        Function.update b' ⟨n + 1, h⟩
          (b' ⟨n + 1, h⟩ ||| ((align4k (b' ⟨n, by omega⟩) + 4096) % UINT32_MOD))
      else b'

/-- qtd_init: clear the descriptor, mark it used and active with three error
retries, record the transfer size, point page 0 at the data buffer and derive
pages 1..4 by the 4-KiB page walk. -/
def qtd_init (data_ptr total_bytes : Nat) : ehci_qtd_t :=
  let q := ehci_qtd_zero
  let q := { q with used := 1 }
  let q := { q with next := q.next ||| 1 }            -- next.terminate = 1
  let q := { q with alternate := q.alternate ||| 1 }  -- alternate.terminate = 1
  let q := { q with active := 1, cerr := 3, data_toggle := 0,
                    total_bytes := total_bytes }
  let q := { q with buffer := Function.update q.buffer 0 data_ptr }
  { q with buffer := qtd_fill_buffers q.buffer 4 }

/-- Queue head (ehci_qhd_t). The horizontal link union is a raw 32-bit word;
the qTD overlay reuses the qTD structure; the driver-private qTD list head and
tail pointers are modelled as optional 32-bit addresses (none is NULL). -/
structure ehci_qhd_t where
  next : Nat
  device_address : Nat
  non_hs_period_inactive_next_xact : Nat
  endpoint_number : Nat
  endpoint_speed : Nat
  data_toggle_control : Nat
  head_list_flag : Nat
  max_package_size : Nat
  non_hs_control_endpoint : Nat
  nak_count_reload : Nat
  interrupt_smask : Nat
  non_hs_interrupt_cmask : Nat
  hub_address : Nat
  hub_port : Nat
  mult : Nat
  qtd_overlay : ehci_qtd_t
  -- driver-private trailer
  used : Nat
  is_removing : Nat
  p_qtd_list_head : Option Nat
  p_qtd_list_tail : Option Nat
  pid_non_control : Nat
  class_code : Nat
deriving DecidableEq

/-- The all-zero queue head produced by memclr_. -/
def ehci_qhd_zero : ehci_qhd_t :=
  { next := 0, device_address := 0, non_hs_period_inactive_next_xact := 0,
    endpoint_number := 0, endpoint_speed := 0, data_toggle_control := 0,
    head_list_flag := 0, max_package_size := 0, non_hs_control_endpoint := 0,
    nak_count_reload := 0, interrupt_smask := 0, non_hs_interrupt_cmask := 0,
    hub_address := 0, hub_port := 0, mult := 0, qtd_overlay := ehci_qtd_zero,
    used := 0, is_removing := 0, p_qtd_list_head := none,
    p_qtd_list_tail := none, pid_non_control := 0, class_code := 0 }

/-- Device-table entry (usbh_device_info_t); only the fields ehci.c reads or
writes are modelled. -/
structure usbh_device_t where
  state : Nat
  speed : Nat
  core_id : Nat
  hub_addr : Nat
  hub_port : Nat
deriving DecidableEq

/-- qhd_init: initialize a queue head for a device endpoint. Address 0 reuses
the permanently linked asynchronous-list head, so its struct is not cleared
first; every other queue head starts from an all-zero struct. The dev
argument is the device-table entry usbh_devices[dev_addr]. -/
def qhd_init (p_qhd : ehci_qhd_t) (dev_addr max_packet_size endpoint_addr xfer_type : Nat)
    (dev : usbh_device_t) : ehci_qhd_t :=
  let q := if dev_addr ≠ 0 then ehci_qhd_zero else p_qhd
  let q := { q with
    device_address := dev_addr,
    non_hs_period_inactive_next_xact := 0,
    endpoint_number := endpoint_addr &&& 0x0F,
    endpoint_speed := dev.speed,
    data_toggle_control := if xfer_type = TUSB_XFER_CONTROL then 1 else 0,
    head_list_flag := if dev_addr = 0 then 1 else 0,
    max_package_size := max_packet_size,
    non_hs_control_endpoint :=
      if TUSB_XFER_CONTROL = xfer_type ∧ dev.speed ≠ TUSB_SPEED_HIGH then 1 else 0,
    nak_count_reload := 0 }
  let q :=
    if TUSB_XFER_INTERRUPT = xfer_type then
      { q with interrupt_smask := if TUSB_SPEED_HIGH = dev.speed then 0xFF else 0x01,
               non_hs_interrupt_cmask := 0x1C }
    else
      { q with interrupt_smask := 0, non_hs_interrupt_cmask := 0 }
  let q := { q with hub_address := dev.hub_addr, hub_port := dev.hub_port, mult := 1 }
  let q := { q with qtd_overlay := { q.qtd_overlay with
    halted := 0,
    next := q.qtd_overlay.next ||| 1,            -- qtd_overlay.next.terminate = 1
    alternate := q.qtd_overlay.alternate ||| 1 } } -- qtd_overlay.alternate.terminate = 1
  { q with used := 1, is_removing := 0, p_qtd_list_head := none,
           p_qtd_list_tail := none,
           pid_non_control :=
             if endpoint_addr &&& 0x80 ≠ 0 then EHCI_PID_IN else EHCI_PID_OUT }

/-- The asynchronous-list head queue head as hcd_controller_init leaves it:
cleared, linked circularly to itself with QHD element type, marked head of
list, overlay halted with a terminated next pointer. head_addr is the
32-byte-aligned address of the head queue head itself. -/
def async_head_after_controller_init (head_addr : Nat) : ehci_qhd_t :=
  let q := ehci_qhd_zero
  let q := { q with next := head_addr }                       -- next.address = itself
  let q := { q with next := link_set_type q.next EHCI_QUEUE_ELEMENT_QHD }
  let q := { q with head_list_flag := 1 }
  let q := { q with qtd_overlay := { q.qtd_overlay with halted := 1 } }
  { q with qtd_overlay := { q.qtd_overlay with next := q.qtd_overlay.next ||| 1 } }

/-- hcd_pipe_control_open for device address 0: the control endpoint of
address 0 is the asynchronous-list head itself, so the queue head is
re-initialized in place and no list insertion happens. dev0 is
usbh_devices[0]. -/
def hcd_pipe_control_open_addr0 (head : ehci_qhd_t) (max_packet_size : Nat)
    (dev0 : usbh_device_t) : ehci_qhd_t :=
  qhd_init head 0 max_packet_size 0 TUSB_XFER_CONTROL dev0

/-- USB standard request (tusb_std_request_t); only the fields that
hcd_pipe_control_xfer reads are modelled. bmRequestType_direction is the
direction bit of bmRequestType. -/
structure tusb_std_request_t where
  bmRequestType_direction : Nat
  wLength : Nat
deriving DecidableEq

/-- The state hcd_pipe_control_xfer operates on: the device's control queue
head and its dedicated array of three control qTDs (SETUP, DATA, STATUS
slots, as returned by get_control_qtds). -/
structure control_pipe_state_t where
  qhd : ehci_qhd_t
  qtd3 : Fin 3 → ehci_qtd_t
deriving DecidableEq

/-- hcd_pipe_control_xfer. qtd_addr i is the 32-bit address of control qTD
slot i (in the C code the slots are consecutive array elements); req_addr is
the address of the request structure, data_addr of the data buffer. -/
def hcd_pipe_control_xfer (qtd_addr : Fin 3 → Nat) (req : tusb_std_request_t)
    (req_addr data_addr : Nat) (st : control_pipe_state_t) : control_pipe_state_t :=
  -- SETUP phase
  let p_setup := qtd_init req_addr 8
  let p_setup := { p_setup with pid := EHCI_PID_SETUP }
  let p_setup := { p_setup with next := qtd_addr 1 }   -- next.address = p_data
  -- STATUS phase (the same writes happen in both branches below)
  let p_status := qtd_init 0 0
  let p_status := { p_status with
    int_on_complete := 1,
    data_toggle := 1,
    pid := if req.bmRequestType_direction ≠ 0 then EHCI_PID_OUT else EHCI_PID_IN,
    next := (qtd_init 0 0).next ||| 1 }                -- next.terminate = 1
  -- attach the TD list to the control endpoint
  let attach := fun (q : ehci_qhd_t) => { q with
    p_qtd_list_head := some (qtd_addr 0),
    p_qtd_list_tail := some (qtd_addr 2),
    qtd_overlay := { q.qtd_overlay with next := qtd_addr 0 } }
  if req.wLength > 0 then
    -- DATA phase present: p_data is control qTD slot 1
    let p_data := qtd_init data_addr req.wLength
    let p_data := { p_data with
      data_toggle := 1,
      pid := if req.bmRequestType_direction ≠ 0 then EHCI_PID_IN else EHCI_PID_OUT }
    let p_data := { p_data with next := qtd_addr 2 }   -- p_data->next.address = p_status
    { qhd := attach st.qhd,
      qtd3 := fun i => if i = 0 then p_setup else if i = 1 then p_data else p_status }
  else
    -- no DATA phase: p_data aliases p_setup, so SETUP links straight to STATUS
    let p_setup := { p_setup with next := qtd_addr 2 }
    { qhd := attach st.qhd,
      qtd3 := fun i => if i = 0 then p_setup else if i = 2 then p_status else st.qtd3 i }

/-- Per-device descriptor slot (ehci_device_t): control queue head, its three
control qTDs, and the bulk/interrupt QHD and qTD pools. -/
structure ehci_device_t where
  control_qhd : ehci_qhd_t
  control_qtd : Fin 3 → ehci_qtd_t
  qhd : Fin EHCI_MAX_QHD → ehci_qhd_t
  qtd : Fin EHCI_MAX_QTD → ehci_qtd_t
deriving DecidableEq

/-- The driver state that async_advance_isr reads and writes: the
asynchronous-list head of the controller, the per-device descriptor slots,
and the device table (usbh_devices, indexed by device address, so one longer
than the slot array). -/
structure ehci_isr_state_t where
  async_head : ehci_qhd_t
  device : Fin TUSB_CFG_HOST_DEVICE_MAX → ehci_device_t
  usbh_devices : Fin (TUSB_CFG_HOST_DEVICE_MAX + 1) → usbh_device_t
deriving DecidableEq

/-- async_advance_isr: complete the pending removal of the address-0 control
pipe (the async head itself), and for every device slot whose control queue
head is being removed, free the control queue head, mark the device
unplugged, and free every QHD and qTD in that device's pools. -/
def async_advance_isr (st : ehci_isr_state_t) : ehci_isr_state_t :=
  let head := st.async_head
  let head' :=
    if head.is_removing ≠ 0 then
      { head with is_removing := 0, p_qtd_list_head := none, p_qtd_list_tail := none,
                  qtd_overlay := { head.qtd_overlay with halted := 1 } }
    else head
  { async_head := head',
    device := fun r =>
      if (st.device r).control_qhd.is_removing ≠ 0 then
        { control_qhd := { (st.device r).control_qhd with is_removing := 0, used := 0 },
          control_qtd := (st.device r).control_qtd,
          qhd := fun i => { (st.device r).qhd i with used := 0, is_removing := 0 },
          qtd := fun i => { (st.device r).qtd i with used := 0 } }
      else st.device r,
    usbh_devices := fun a =>
      if h : 1 ≤ a.val then
        if (st.device ⟨a.val - 1, by omega⟩).control_qhd.is_removing ≠ 0 then
          { st.usbh_devices a with state := TUSB_DEVICE_STATE_UNPLUG }
        else st.usbh_devices a
      else st.usbh_devices a }

/-!
List-manager helpers. For list_find_previous_qhd and list_remove_qhd only the
horizontal link words of the queue heads are relevant, so memory is modelled
as a map from a queue head's 32-bit address to its current link word. The C
while loop is given explicit fuel; the theorems quantify over any fuel at
least the list length.
-/

/-- The while loop of list_find_previous_qhd: advance p_prev_qhd while its
next link (masked to an address) is neither the head nor the sought queue
head. -/
def find_prev_loop (mem : Nat → Nat) (head target : Nat) : Nat → Nat → Nat
  | 0, cur => cur
  | fuel + 1, cur =>
      if align32 (mem cur) ≠ head ∧ align32 (mem cur) ≠ target then
        find_prev_loop mem head target fuel (align32 (mem cur))
      else cur

/-- list_find_previous_qhd: walk the circular list from the head; return the
queue head whose next link addresses the target, or none if the walk comes
back to the head first. -/
def list_find_previous_qhd (mem : Nat → Nat) (head target : Nat) (fuel : Nat) : Option Nat :=
  let p_prev := find_prev_loop mem head target fuel head
  if align32 (mem p_prev) ≠ head then some p_prev else none

/-- list_remove_qhd: unlink the target queue head by copying its link word
into its predecessor, then point the target back at the list head with QHD
element type (EHCI 4.8.2). Returns none (TUSB_ERROR_INVALID_PARA) if the
target is not on the list. -/
def list_remove_qhd (mem : Nat → Nat) (head target : Nat) (fuel : Nat) : Option (Nat → Nat) :=
  match list_find_previous_qhd mem head target fuel with
  | none => none
  | some p_prev =>
      let m1 := Function.update mem p_prev (mem target)
      some (Function.update m1 target (link_set_type head EHCI_QUEUE_ELEMENT_QHD))

/-- Pipe handle (pipe_handle_t): opaque triple identifying a queue head. -/
structure pipe_handle_t where
  dev_addr : Nat
  xfer_type : Nat
  index : Nat
deriving DecidableEq, Repr

/-- qtd_find_free: first qTD of the device pool whose used bit is clear,
scanning upward from index 0; none if the pool is exhausted. -/
def qtd_find_free (dev : ehci_device_t) : Option (Fin EHCI_MAX_QTD) :=
  (List.finRange EHCI_MAX_QTD).find? (fun i => (dev.qtd i).used == 0)

/-- qhd_find_free: first queue head of the device pool whose used bit is
clear, scanning upward from index 0; none if the pool is exhausted. -/
def qhd_find_free (dev : ehci_device_t) : Option (Fin EHCI_MAX_QHD) :=
  (List.finRange EHCI_MAX_QHD).find? (fun i => (dev.qhd i).used == 0)

/-- qtd_insert_to_qhd: append a new qTD (at 32-bit address new_addr) to the
qTD list of queue head number qi of the device. A i is the address of pool
qTD i, through which the write to the old tail's next word is resolved. -/
def qtd_insert_to_qhd (A : Fin EHCI_MAX_QTD → Nat) (dev : ehci_device_t)
    (qi : Fin EHCI_MAX_QHD) (new_addr : Nat) : ehci_device_t :=
  let p_qhd := dev.qhd qi
  match p_qhd.p_qtd_list_head with
  | none =>
      -- empty list: the new qTD becomes head and tail and is activated in the overlay
      let q' := { p_qhd with p_qtd_list_head := some new_addr,
                              p_qtd_list_tail := some new_addr,
                              qtd_overlay := { p_qhd.qtd_overlay with next := new_addr } }
      { dev with qhd := Function.update dev.qhd qi q' }
  | some _ =>
      match p_qhd.p_qtd_list_tail with
      | some t =>
          -- p_qtd_list_tail->next.address = new_addr, then the tail moves
          { dev with
            qtd := fun i => if A i = t then { dev.qtd i with next := new_addr } else dev.qtd i,
            qhd := Function.update dev.qhd qi ({ p_qhd with p_qtd_list_tail := some new_addr }) }
      | none =>
          -- non-null head with null tail cannot arise; the C code would
          -- dereference NULL here
          { dev with qhd := Function.update dev.qhd qi ({ p_qhd with p_qtd_list_tail := some new_addr }) }

/-- hcd_pipe_xfer, acting on the device slot of the handle
(ehci_data.device of dev_addr - 1). A i is the address of pool qTD i. -/
def hcd_pipe_xfer (A : Fin EHCI_MAX_QTD → Nat) (dev : ehci_device_t)
    (hdl : pipe_handle_t) (buffer_addr total_bytes : Nat) (ioc : Bool) :
    tusb_error_t × ehci_device_t :=
  if h : hdl.index < EHCI_MAX_QHD then
    let qi : Fin EHCI_MAX_QHD := ⟨hdl.index, h⟩
    let p_qhd := dev.qhd qi
    match qtd_find_free dev with
    | none => (TUSB_ERROR_EHCI_NOT_ENOUGH_QTD, dev)  -- ASSERT_PTR fails: nothing was modified
    | some j =>
        let p_qtd := qtd_init buffer_addr total_bytes
        let p_qtd := { p_qtd with pid := p_qhd.pid_non_control,
                                  int_on_complete := if ioc then 1 else 0 }
        -- PING for high-speed bulk OUT, EHCI section 4.11
        let p_qtd :=
          if hdl.xfer_type = TUSB_XFER_BULK ∧ p_qhd.endpoint_speed = TUSB_SPEED_HIGH ∧
             p_qtd.pid = EHCI_PID_OUT then
            { p_qtd with pingstate_err := 1 }
          else p_qtd
        let dev' := { dev with qtd := Function.update dev.qtd j p_qtd }
        (TUSB_ERROR_NONE, qtd_insert_to_qhd A dev' qi (A j))
  else (TUSB_ERROR_INVALID_PARA, dev)  -- out-of-bounds handle index: unreachable for handles produced by hcd_pipe_open

/-- Size in bytes of the 32-byte-aligned ehci_qhd_t struct, the stride of the
pointer subtraction in qhd_get_index; the claims do not depend on its exact
value. -/
def sizeof_ehci_qhd : Nat := 64

/-- qhd_get_index: pointer subtraction of the queue head's address from the
base of the QHD pool of device slot device_address - 1. baseQ d is the base
address of slot d's pool, q_addr the queue head's own address. -/
def qhd_get_index (baseQ : Fin TUSB_CFG_HOST_DEVICE_MAX → Nat)
    (q : ehci_qhd_t) (q_addr : Nat) : Nat :=
  if h : q.device_address - 1 < TUSB_CFG_HOST_DEVICE_MAX then
    (q_addr - baseQ ⟨q.device_address - 1, h⟩) / sizeof_ehci_qhd
  else 0  -- device address beyond the table: the C pointer subtraction is unspecified

/-- qhd_get_from_pipe_handle: index the handle's device slot and QHD pool;
none models the out-of-bounds accesses the C code would perform on a
malformed handle. -/
def qhd_get_from_pipe_handle (st : Fin TUSB_CFG_HOST_DEVICE_MAX → ehci_device_t)
    (hdl : pipe_handle_t) : Option ehci_qhd_t :=
  if h1 : hdl.dev_addr - 1 < TUSB_CFG_HOST_DEVICE_MAX then
    if h2 : hdl.index < EHCI_MAX_QHD then
      some ((st ⟨hdl.dev_addr - 1, h1⟩).qhd ⟨hdl.index, h2⟩)
    else none
  else none

/-- USB endpoint descriptor (tusb_descriptor_endpoint_t); only the fields
hcd_pipe_open reads are modelled. -/
structure tusb_descriptor_endpoint_t where
  bEndpointAddress : Nat
  bmAttributes_xfer : Nat
  wMaxPacketSize_size : Nat
deriving DecidableEq

/-- hcd_pipe_open over the per-device slots st (indexed by dev_addr - 1).
usb_dev is usbh_devices[dev_addr]; async_head_word and period_head_word are
the current horizontal link words of the controller's asynchronous and
periodic list heads, from which list_insert seeds the new queue head's link
(the matching write into the list head itself lives outside the device slots
and is not part of this state). The returned handle with dev_addr 0 is the
null handle. -/
def hcd_pipe_open (baseQ : Fin TUSB_CFG_HOST_DEVICE_MAX → Nat)
    (st : Fin TUSB_CFG_HOST_DEVICE_MAX → ehci_device_t) (usb_dev : usbh_device_t)
    (dev_addr : Nat) (ep : tusb_descriptor_endpoint_t) (class_code : Nat)
    (async_head_word period_head_word : Nat) :
    pipe_handle_t × (Fin TUSB_CFG_HOST_DEVICE_MAX → ehci_device_t) :=
  let null_handle : pipe_handle_t := ⟨0, 0, 0⟩
  if dev_addr = 0 then (null_handle, st)  -- ASSERT(dev_addr > 0)
  else if ep.bmAttributes_xfer = TUSB_XFER_ISOCHRONOUS then (null_handle, st)
  else if h : dev_addr - 1 < TUSB_CFG_HOST_DEVICE_MAX then
    let d : Fin TUSB_CFG_HOST_DEVICE_MAX := ⟨dev_addr - 1, h⟩
    match qhd_find_free (st d) with
    | none => (null_handle, st)  -- ASSERT_PTR fails
    | some i =>
        let p_qhd := qhd_init ((st d).qhd i) dev_addr ep.wMaxPacketSize_size
                       ep.bEndpointAddress ep.bmAttributes_xfer usb_dev
        let p_qhd := { p_qhd with class_code := class_code }
        -- list_insert seeds the new queue head's horizontal link from the list head;
        -- for a transfer type that is neither bulk nor interrupt the C list_head
        -- variable is uninitialized, modelled here as the junk word 0
        let p_qhd := { p_qhd with next :=
          if ep.bmAttributes_xfer = TUSB_XFER_BULK then async_head_word
          else if ep.bmAttributes_xfer = TUSB_XFER_INTERRUPT then period_head_word
          else 0 }
        let st' := Function.update st d ({ st d with qhd := Function.update (st d).qhd i p_qhd })
        (⟨dev_addr, ep.bmAttributes_xfer,
          qhd_get_index baseQ p_qhd (baseQ d + sizeof_ehci_qhd * i.val)⟩, st')
  else (null_handle, st)  -- device address beyond the table: the C code would index out of bounds

/-- Modelled from the spec: the timeout timer of common/timeout_timer.h is
not among the given sources. timeout_set arms a 2-frame budget and
timeout_expired reports whether at least 2 frames have elapsed since arming;
elapsed k is the number of elapsed frames at the k-th poll of the wait
loop. -/
def timeout_expired (elapsed : Nat → Nat) (k : Nat) : Bool := 2 ≤ elapsed k

/-- A fueled busy-wait loop: starting at poll index k, advance while cont
holds, returning the exit poll index. -/
def poll_exit (cont : Nat → Bool) : Nat → Nat → Nat
  | 0, k => k
  | fuel + 1, k => if cont k then poll_exit cont fuel (k + 1) else k

/-- Exit poll index of the wait loop of hcd_controller_stop, which polls
while the halted status bit is clear and the 2-frame timeout has not
expired. hc_halted k is the value of usb_sts_bit.hc_halted at poll k. -/
def hcd_controller_stop_exit (hc_halted : Nat → Bool) (elapsed : Nat → Nat)
    (fuel : Nat) : Nat :=
  poll_exit (fun k => !hc_halted k && !timeout_expired elapsed k) fuel 0

/-- hcd_controller_stop: clear run/stop (a register write outside this
state), busy-wait for the halted bit with a 2-frame budget, and report
timeout or success. -/
def hcd_controller_stop (hc_halted : Nat → Bool) (elapsed : Nat → Nat)
    (fuel : Nat) : tusb_error_t :=
  let k := hcd_controller_stop_exit hc_halted elapsed fuel
  if timeout_expired elapsed k then TUSB_ERROR_OSAL_TIMEOUT else TUSB_ERROR_NONE

/-- Exit poll index of the wait loop of hcd_controller_reset, which polls
while the reset command bit is still set and the 2-frame timeout has not
expired. reset_bit k is the value of usb_cmd_bit.reset at poll k. -/
def hcd_controller_reset_exit (reset_bit : Nat → Bool) (elapsed : Nat → Nat)
    (fuel : Nat) : Nat :=
  poll_exit (fun k => reset_bit k && !timeout_expired elapsed k) fuel 0

/-- hcd_controller_reset: set the reset command bit (a register write outside
this state), busy-wait for it to clear with a 2-frame budget, and report
timeout or success. -/
def hcd_controller_reset (reset_bit : Nat → Bool) (elapsed : Nat → Nat)
    (fuel : Nat) : tusb_error_t :=
  let k := hcd_controller_reset_exit reset_bit elapsed fuel
  if timeout_expired elapsed k then TUSB_ERROR_OSAL_TIMEOUT else TUSB_ERROR_NONE

/-- Adjacency of a walk: each list element's next link (masked to an address)
is the following element. -/
def chainNext (mem : Nat → Nat) : List Nat → Bool
  | [] => true
  | [_] => true
  | a :: b :: tl => (align32 (mem a) == b) && chainNext mem (b :: tl)

/-- C3 cex state: pool QHD 0 of device slot 0 is pending removal, control QHD is not -/
def c3_state : ehci_isr_state_t :=
  { async_head := ehci_qhd_zero,
    device := fun _ =>
      { control_qhd := ehci_qhd_zero,
        control_qtd := fun _ => ehci_qtd_zero,
        qhd := fun i => if i.val = 0 then { ehci_qhd_zero with used := 1, is_removing := 1 }
               else ehci_qhd_zero,
        qtd := fun _ => ehci_qtd_zero },
    usbh_devices := fun _ => ⟨1, 0, 0, 0, 0⟩ }

def c6_dev : ehci_device_t :=
  { control_qhd := ehci_qhd_zero,
    control_qtd := fun _ => ehci_qtd_zero,
    qhd := fun _ => ehci_qhd_zero,
    qtd := fun _ => { ehci_qtd_zero with used := 1 } }

def c0_control_state : control_pipe_state_t :=
  { qhd := ehci_qhd_zero, qtd3 := fun _ => ehci_qtd_zero }

def ehci_device_zero : ehci_device_t :=
  { control_qhd := ehci_qhd_zero, control_qtd := fun _ => ehci_qtd_zero,
    qhd := fun _ => ehci_qhd_zero, qtd := fun _ => ehci_qtd_zero }

def c2_isr_state : ehci_isr_state_t :=
  { async_head := { ehci_qhd_zero with is_removing := 1 },
    device := fun _ => ehci_device_zero,
    usbh_devices := fun _ => ⟨0, 0, 0, 0, 0⟩ }

def c3w_state : ehci_isr_state_t :=
  { async_head := ehci_qhd_zero,
    device := fun _ => { ehci_device_zero with
      control_qhd := { ehci_qhd_zero with used := 1, is_removing := 1 } },
    usbh_devices := fun _ => ⟨1, 0, 0, 0, 0⟩ }

def c4_mem : Nat → Nat := fun a => if a = 4096 then 4130 else if a = 4128 then 4098 else 0

def c8_dev : ehci_device_t :=
  { control_qhd := ehci_qhd_zero, control_qtd := fun _ => ehci_qtd_zero,
    qhd := fun i =>
      if i.val = 0 then
        { ehci_qhd_zero with
          used := 1, endpoint_speed := TUSB_SPEED_HIGH, pid_non_control := EHCI_PID_OUT }
      else ehci_qhd_zero,
    qtd := fun _ => ehci_qtd_zero }

def c9_baseQ : Fin TUSB_CFG_HOST_DEVICE_MAX → Nat := fun d => 4096 + 4096 * d.val

def c9_st : Fin TUSB_CFG_HOST_DEVICE_MAX → ehci_device_t := fun _ => ehci_device_zero

set_option maxRecDepth 10000

lemma qtd_init_buffer1 (p n : Nat) : (qtd_init p n).buffer ⟨1, by omega⟩ =
    (align4k ((qtd_init p n).buffer ⟨0, by omega⟩) + 4096) % UINT32_MOD := by
  have h : (qtd_init p n).buffer ⟨1, by omega⟩ =
      0 ||| ((align4k ((qtd_init p n).buffer ⟨0, by omega⟩) + 4096) % UINT32_MOD) := rfl
  rw [h, Nat.zero_or]

lemma qtd_init_buffer2 (p n : Nat) : (qtd_init p n).buffer ⟨2, by omega⟩ =
    (align4k ((qtd_init p n).buffer ⟨1, by omega⟩) + 4096) % UINT32_MOD := by
  have h : (qtd_init p n).buffer ⟨2, by omega⟩ =
      0 ||| ((align4k ((qtd_init p n).buffer ⟨1, by omega⟩) + 4096) % UINT32_MOD) := rfl
  rw [h, Nat.zero_or]

lemma qtd_init_buffer3 (p n : Nat) : (qtd_init p n).buffer ⟨3, by omega⟩ =
    (align4k ((qtd_init p n).buffer ⟨2, by omega⟩) + 4096) % UINT32_MOD := by
  have h : (qtd_init p n).buffer ⟨3, by omega⟩ =
      0 ||| ((align4k ((qtd_init p n).buffer ⟨2, by omega⟩) + 4096) % UINT32_MOD) := rfl
  rw [h, Nat.zero_or]

lemma qtd_init_buffer4 (p n : Nat) : (qtd_init p n).buffer ⟨4, by omega⟩ =
    (align4k ((qtd_init p n).buffer ⟨3, by omega⟩) + 4096) % UINT32_MOD := by
  have h : (qtd_init p n).buffer ⟨4, by omega⟩ =
      0 ||| ((align4k ((qtd_init p n).buffer ⟨3, by omega⟩) + 4096) % UINT32_MOD) := rfl
  rw [h, Nat.zero_or]

/-- C5: every qTD initialized by qtd_init with data pointer p and length
n ≤ 20 KiB has used=1, active=1, cerr=3, total_bytes=n, buffer page 0 equal
to p, and each buffer page i in 1..4 equal to
(buffer page i-1 masked to its 4-KiB page base) + 0x1000, in uint32
arithmetic. -/
theorem qtd_init_spec (p n : Nat) (hp : p < UINT32_MOD) (hn : n ≤ 20480) :
    (qtd_init p n).used = 1 ∧ (qtd_init p n).active = 1 ∧ (qtd_init p n).cerr = 3 ∧
    (qtd_init p n).total_bytes = n ∧ (qtd_init p n).buffer 0 = p ∧
    ∀ (iv : Nat) (h1 : 1 ≤ iv) (h4 : iv ≤ 4),
      (qtd_init p n).buffer ⟨iv, by omega⟩ =
        (align4k ((qtd_init p n).buffer ⟨iv - 1, by omega⟩) + 4096) % UINT32_MOD := by
  refine ⟨rfl, rfl, rfl, rfl, rfl, ?_⟩
  intro iv h1 h4
  interval_cases iv
  · exact qtd_init_buffer1 p n
  · exact qtd_init_buffer2 p n
  · exact qtd_init_buffer3 p n
  · exact qtd_init_buffer4 p n

/-- C1: hcd_pipe_control_xfer with wLength > 0 lays out three qTDs: the
SETUP qTD has pid=SETUP, data_toggle=0 and total_bytes=8; the DATA qTD has
data_toggle=1 and pid=IN if the request direction bit is set, else OUT; the
STATUS qTD is zero-length with data_toggle=1, pid the reverse of the DATA
pid, int_on_complete=1 and a terminated next link; and the queue head's
overlay next pointer is the SETUP qTD's address. -/
theorem hcd_pipe_control_xfer_three_phase (qtd_addr : Fin 3 → Nat)
    (req : tusb_std_request_t) (req_addr data_addr : Nat) (st : control_pipe_state_t)
    (hw : req.wLength > 0) :
    let r := hcd_pipe_control_xfer qtd_addr req req_addr data_addr st
    (r.qtd3 0).pid = EHCI_PID_SETUP ∧ (r.qtd3 0).data_toggle = 0 ∧
    (r.qtd3 0).total_bytes = 8 ∧
    (r.qtd3 1).data_toggle = 1 ∧
    (r.qtd3 1).pid = (if req.bmRequestType_direction ≠ 0 then EHCI_PID_IN else EHCI_PID_OUT) ∧
    (r.qtd3 2).total_bytes = 0 ∧ (r.qtd3 2).data_toggle = 1 ∧
    (r.qtd3 2).pid = (if req.bmRequestType_direction ≠ 0 then EHCI_PID_OUT else EHCI_PID_IN) ∧
    (r.qtd3 2).int_on_complete = 1 ∧ link_terminate ((r.qtd3 2).next) = 1 ∧
    r.qhd.qtd_overlay.next = qtd_addr 0 := by
  unfold hcd_pipe_control_xfer
  rw [if_pos hw]
  refine ⟨rfl, rfl, rfl, rfl, rfl, rfl, rfl, rfl, rfl, ?_, rfl⟩
  show link_terminate ((qtd_init 0 0).next ||| 1) = 1
  decide

/-- C10: hcd_pipe_control_xfer with wLength = 0 initializes no DATA qTD:
the SETUP qTD's next pointer addresses the STATUS qTD directly, the queue
head's qTD-list head is the SETUP qTD and its tail the STATUS qTD, and the
middle control-qTD slot is left untouched. -/
theorem hcd_pipe_control_xfer_no_data_phase (qtd_addr : Fin 3 → Nat)
    (req : tusb_std_request_t) (req_addr data_addr : Nat) (st : control_pipe_state_t)
    (hw : req.wLength = 0) :
    let r := hcd_pipe_control_xfer qtd_addr req req_addr data_addr st
    (r.qtd3 0).next = qtd_addr 2 ∧
    r.qhd.p_qtd_list_head = some (qtd_addr 0) ∧
    r.qhd.p_qtd_list_tail = some (qtd_addr 2) ∧
    r.qtd3 1 = st.qtd3 1 := by
  unfold hcd_pipe_control_xfer
  rw [if_neg (by omega)]
  exact ⟨rfl, rfl, rfl, rfl⟩

/-- C2 counterexample: after hcd_pipe_control_open of address 0 on the
asynchronous-list head left by controller init, the claimed conjunction
(head_list_flag=1 and overlay halted=1) is false at a concrete input,
because qhd_init un-halts the overlay so that address-0 control transfers
can execute. -/
theorem hcd_pipe_control_open_addr0_not_halted :
    ¬ (((hcd_pipe_control_open_addr0 (async_head_after_controller_init 4096) 8
          ⟨0, 0, 0, 0, 0⟩).head_list_flag = 1) ∧
       ((hcd_pipe_control_open_addr0 (async_head_after_controller_init 4096) 8
          ⟨0, 0, 0, 0, 0⟩).qtd_overlay.halted = 1)) := by
  decide

/-- C2 amended: after hcd_pipe_control_open of address 0 (which reuses the
asynchronous-list head), the head queue head has head_list_flag=1 and its
qTD overlay has halted=0 (the pipe is active, not halted); the overlay is
halted again by async_advance_isr when the address-0 pipe is closed. -/
theorem hcd_pipe_control_open_addr0_spec (head_addr max_packet_size : Nat)
    (dev0 : usbh_device_t) (st : ehci_isr_state_t)
    (hrm : st.async_head.is_removing ≠ 0) :
    (hcd_pipe_control_open_addr0 (async_head_after_controller_init head_addr)
        max_packet_size dev0).head_list_flag = 1 ∧
    (hcd_pipe_control_open_addr0 (async_head_after_controller_init head_addr)
        max_packet_size dev0).qtd_overlay.halted = 0 ∧
    (async_advance_isr st).async_head.qtd_overlay.halted = 1 := by
  refine ⟨rfl, rfl, ?_⟩
  unfold async_advance_isr
  simp [hrm]

/-- C3 amended: on an async-advance event, for every device slot whose
CONTROL queue head is pending with is_removing=1, the handler clears that
queue head's used and is_removing flags, transitions the owning device's
state to UNPLUG, and frees (sets used=0 on) every QHD and qTD in that
device's pools. -/
theorem async_advance_isr_control_removal (st : ehci_isr_state_t)
    (r : Fin TUSB_CFG_HOST_DEVICE_MAX)
    (hrm : (st.device r).control_qhd.is_removing ≠ 0) :
    ((async_advance_isr st).device r).control_qhd.used = 0 ∧
    ((async_advance_isr st).device r).control_qhd.is_removing = 0 ∧
    ((async_advance_isr st).usbh_devices ⟨r.val + 1, by omega⟩).state
      = TUSB_DEVICE_STATE_UNPLUG ∧
    (∀ i, (((async_advance_isr st).device r).qhd i).used = 0) ∧
    (∀ i, (((async_advance_isr st).device r).qtd i).used = 0) := by
  simp [async_advance_isr, hrm]

/-- C3 counterexample: a non-control pool QHD pending with is_removing=1
is NOT completed by async_advance_isr: its used flag stays 1 and the owning
device's state is not transitioned to UNPLUG (the per-endpoint removal loop
is commented out in the source), refuting the claim as stated. -/
theorem async_advance_isr_pool_qhd_not_completed :
    ((c3_state.device ⟨0, by decide⟩).qhd ⟨0, by decide⟩).is_removing = 1 ∧
    (((async_advance_isr c3_state).device ⟨0, by decide⟩).qhd ⟨0, by decide⟩).used = 1 ∧
    ((async_advance_isr c3_state).usbh_devices ⟨1, by decide⟩).state ≠ TUSB_DEVICE_STATE_UNPLUG := by
  decide

/-- C6: when every qTD of the owning device's pool has used=1,
hcd_pipe_xfer returns TUSB_ERROR_EHCI_NOT_ENOUGH_QTD and leaves the whole
device state, in particular the target queue head with its qTD list head,
tail and overlay, completely unchanged. -/
theorem hcd_pipe_xfer_pool_exhausted (A : Fin EHCI_MAX_QTD → Nat) (dev : ehci_device_t)
    (hdl : pipe_handle_t) (buffer_addr total_bytes : Nat) (ioc : Bool)
    (hidx : hdl.index < EHCI_MAX_QHD)
    (hfull : ∀ i, (dev.qtd i).used ≠ 0) :
    hcd_pipe_xfer A dev hdl buffer_addr total_bytes ioc =
      (TUSB_ERROR_EHCI_NOT_ENOUGH_QTD, dev) := by
  have hnone : qtd_find_free dev = none := by
    unfold qtd_find_free
    rw [List.find?_eq_none]
    intro i _
    simpa using hfull i
  simp [hcd_pipe_xfer, hidx, hnone]

/-- C6 witness: hcd_pipe_xfer evaluated on a concrete device whose qTD
pool is fully used. -/
theorem hcd_pipe_xfer_pool_exhausted_witness :
    (0 : Nat) < EHCI_MAX_QHD ∧ (∀ i, ((c6_dev).qtd i).used ≠ 0) ∧
    hcd_pipe_xfer (fun i => 32 * i.val) c6_dev ⟨1, TUSB_XFER_BULK, 0⟩ 4096 512 true =
      (TUSB_ERROR_EHCI_NOT_ENOUGH_QTD, c6_dev) :=
  ⟨by decide, by decide,
    hcd_pipe_xfer_pool_exhausted (fun i => 32 * i.val) c6_dev ⟨1, TUSB_XFER_BULK, 0⟩
      4096 512 true (by decide) (by decide)⟩

lemma qtd_init_pingstate_err (a b : Nat) : (qtd_init a b).pingstate_err = 0 := rfl

/-- C8: a successful hcd_pipe_xfer appends the allocated qTD at the queue
head's qTD-list tail with pid taken from pid_non_control; the qTD has
pingstate_err=1 exactly when the handle's transfer type is BULK, the queue
head's endpoint speed is HIGH and its pid_non_control is OUT, and
pingstate_err=0 for every other combination. -/
theorem hcd_pipe_xfer_hs_bulk_out_ping (A : Fin EHCI_MAX_QTD → Nat) (dev : ehci_device_t)
    (hdl : pipe_handle_t) (buffer_addr total_bytes : Nat) (ioc : Bool) (j : Fin EHCI_MAX_QTD)
    (hidx : hdl.index < EHCI_MAX_QHD)
    (hfree : qtd_find_free dev = some j) :
    (hcd_pipe_xfer A dev hdl buffer_addr total_bytes ioc).1 = TUSB_ERROR_NONE ∧
    (((hcd_pipe_xfer A dev hdl buffer_addr total_bytes ioc).2.qhd
        ⟨hdl.index, hidx⟩).p_qtd_list_tail = some (A j)) ∧
    (((hcd_pipe_xfer A dev hdl buffer_addr total_bytes ioc).2.qtd j).pid
        = (dev.qhd ⟨hdl.index, hidx⟩).pid_non_control) ∧
    (((hcd_pipe_xfer A dev hdl buffer_addr total_bytes ioc).2.qtd j).pingstate_err =
      if hdl.xfer_type = TUSB_XFER_BULK ∧
         (dev.qhd ⟨hdl.index, hidx⟩).endpoint_speed = TUSB_SPEED_HIGH ∧
         (dev.qhd ⟨hdl.index, hidx⟩).pid_non_control = EHCI_PID_OUT then 1 else 0) := by
  unfold hcd_pipe_xfer
  rw [dif_pos hidx, hfree]
  unfold qtd_insert_to_qhd
  dsimp only
  by_cases hc : hdl.xfer_type = TUSB_XFER_BULK ∧
      (dev.qhd ⟨hdl.index, hidx⟩).endpoint_speed = TUSB_SPEED_HIGH ∧
      (dev.qhd ⟨hdl.index, hidx⟩).pid_non_control = EHCI_PID_OUT
  · rw [if_pos hc, if_pos hc]
    rcases hh : (dev.qhd ⟨hdl.index, hidx⟩).p_qtd_list_head with _ | hd
    · simp [hh, Function.update_same]
    · rcases ht : (dev.qhd ⟨hdl.index, hidx⟩).p_qtd_list_tail with _ | t
      · simp [hh, ht, Function.update_same]
      · by_cases hAj : A j = t
        · simp [hh, ht, hAj, Function.update_same]
        · simp [hh, ht, hAj, Function.update_same]
  · rw [if_neg hc, if_neg hc]
    rcases hh : (dev.qhd ⟨hdl.index, hidx⟩).p_qtd_list_head with _ | hd
    · simp [hh, Function.update_same, qtd_init_pingstate_err]
    · rcases ht : (dev.qhd ⟨hdl.index, hidx⟩).p_qtd_list_tail with _ | t
      · simp [hh, ht, Function.update_same, qtd_init_pingstate_err]
      · by_cases hAj : A j = t
        · simp [hh, ht, hAj, Function.update_same, qtd_init_pingstate_err]
        · simp [hh, ht, hAj, Function.update_same, qtd_init_pingstate_err]

lemma testBit_0xFFFFFFE0 (i : Nat) :
    Nat.testBit 0xFFFFFFE0 i = (decide (5 ≤ i) && decide (i < 32)) := by
  have h : (0xFFFFFFE0 : Nat) = (2^27 - 1) <<< 5 := by decide
  rw [h, Nat.testBit_shiftLeft, Nat.testBit_two_pow_sub_one]
  by_cases h5 : 5 ≤ i <;> by_cases h32 : i < 32 <;>
    simp [h5, h32, decide_eq_true_eq, ge_iff_le] <;> omega

lemma testBit_0xFFFFFFF9 (i : Nat) :
    Nat.testBit 0xFFFFFFF9 i = (decide (i = 0) || (decide (3 ≤ i) && decide (i < 32))) := by
  have h : (0xFFFFFFF9 : Nat) = 1 ||| ((2^29 - 1) <<< 3) := by decide
  rw [h, Nat.testBit_or, Nat.testBit_shiftLeft, Nat.testBit_two_pow_sub_one,
      show (1 : Nat) = 2^1 - 1 from rfl, Nat.testBit_two_pow_sub_one]
  by_cases h0 : i = 0 <;> by_cases h3 : 3 ≤ i <;> by_cases h32 : i < 32 <;>
    simp [h0, h3, h32, decide_eq_true_eq, ge_iff_le] <;> omega

lemma testBit_two (i : Nat) :
    Nat.testBit 2 i = decide (i = 1) := by
  have h : (2 : Nat) = (2^1 - 1) <<< 1 := by decide
  rw [h, Nat.testBit_shiftLeft, Nat.testBit_two_pow_sub_one]
  by_cases h1 : i = 1 <;> simp [h1, decide_eq_true_eq, ge_iff_le] <;> omega

/-- For a 32-byte-aligned 32-bit word w, writing the QHD element type into w
leaves a word whose address part is w and whose type tag is QHD. -/
lemma link_set_type_aligned (w : Nat) (h : align32 w = w) :
    align32 (link_set_type w EHCI_QUEUE_ELEMENT_QHD) = w ∧
    link_type (link_set_type w EHCI_QUEUE_ELEMENT_QHD) = EHCI_QUEUE_ELEMENT_QHD := by
  have hw : ∀ i, w.testBit i = (w.testBit i && (decide (5 ≤ i) && decide (i < 32))) := by
    intro i
    conv_lhs => rw [← h]
    rw [align32, Nat.testBit_and, testBit_0xFFFFFFE0]
  constructor
  · apply Nat.eq_of_testBit_eq
    intro i
    rw [align32, link_set_type, EHCI_QUEUE_ELEMENT_QHD]
    rw [show (1 : Nat) <<< 1 = 2 from rfl]
    rw [Nat.testBit_and, Nat.testBit_or, Nat.testBit_and,
        testBit_0xFFFFFFE0, testBit_0xFFFFFFF9, testBit_two]
    by_cases h5 : 5 ≤ i <;> by_cases h32 : i < 32
    · simp [h5, h32, show (3:Nat) ≤ i from by omega, show ¬ (i = 0) from by omega,
            show ¬ (i = 1) from by omega]
    · conv_rhs => rw [hw i]
      simp [h5, h32]
    · conv_rhs => rw [hw i]
      simp [h5, h32]
    · conv_rhs => rw [hw i]
      simp [h5, h32]
  · apply Nat.eq_of_testBit_eq
    intro i
    rw [link_type, link_set_type, EHCI_QUEUE_ELEMENT_QHD]
    rw [show (1 : Nat) <<< 1 = 2 from rfl]
    rw [Nat.testBit_and, Nat.testBit_shiftRight, Nat.testBit_or, Nat.testBit_and,
        testBit_0xFFFFFFF9, testBit_two, show (3 : Nat) = 2^2 - 1 from rfl,
        Nat.testBit_two_pow_sub_one, show (1 : Nat) = 2^1 - 1 from rfl,
        Nat.testBit_two_pow_sub_one]
    rcases i with _ | _ | i
    · have h1 := hw 1
      simp only [show ¬ (5 ≤ 1) from by omega, decide_False, Bool.false_and,
                 Bool.and_false] at h1
      simp [h1]
    · simp
    · simp

lemma chainNext_cons (mem : Nat → Nat) (a b : Nat) (tl : List Nat) :
    chainNext mem (a :: b :: tl) = true ↔
      align32 (mem a) = b ∧ chainNext mem (b :: tl) = true := by
  simp [chainNext]

lemma chainNext_congr_dropLast (m1 m2 : Nat → Nat) :
    ∀ (l : List Nat), (∀ x ∈ l.dropLast, m1 x = m2 x) →
      chainNext m1 l = chainNext m2 l
  | [], _ => rfl
  | [_], _ => rfl
  | a :: b :: tl, h => by
      have ha : m1 a = m2 a := h a (by
        rcases tl with _ | ⟨c, tl⟩
        · simp
        · simp)
      rw [show chainNext m1 (a :: b :: tl) =
            ((align32 (m1 a) == b) && chainNext m1 (b :: tl)) from rfl,
          show chainNext m2 (a :: b :: tl) =
            ((align32 (m2 a) == b) && chainNext m2 (b :: tl)) from rfl,
          ha, chainNext_congr_dropLast m1 m2 (b :: tl) (fun x hx => h x (by
            rcases tl with _ | ⟨c, tl⟩
            · simp at hx
            · simp at hx ⊢
              tauto))]

lemma chainNext_append (m : Nat → Nat) :
    ∀ (l1 : List Nat) (x : Nat) (l2 : List Nat),
      chainNext m (l1 ++ x :: l2) = (chainNext m (l1 ++ [x]) && chainNext m (x :: l2))
  | [], x, l2 => by simp [chainNext]
  | [a], x, l2 => by
      simp only [List.cons_append, List.nil_append]
      rw [show chainNext m (a :: x :: l2) =
            ((align32 (m a) == x) && chainNext m (x :: l2)) from rfl,
          show chainNext m [a, x] = ((align32 (m a) == x) && chainNext m [x]) from rfl,
          show chainNext m [x] = true from rfl]
      simp [Bool.and_assoc]
  | a :: b :: l1, x, l2 => by
      simp only [List.cons_append]
      rw [show chainNext m (a :: b :: (l1 ++ x :: l2)) =
            ((align32 (m a) == b) && chainNext m (b :: (l1 ++ x :: l2))) from rfl,
          show chainNext m (a :: b :: (l1 ++ [x])) =
            ((align32 (m a) == b) && chainNext m (b :: (l1 ++ [x]))) from rfl]
      have := chainNext_append m (b :: l1) x l2
      simp only [List.cons_append] at this
      rw [this, Bool.and_assoc]

lemma chainNext_concat (m : Nat → Nat) :
    ∀ (l : List Nat) (x d : Nat), l ≠ [] →
      (chainNext m (l ++ [x]) = (chainNext m l && (align32 (m (l.getLastD d)) == x)))
  | [], _, _, h => absurd rfl h
  | [a], x, d, _ => by
      simp only [List.cons_append, List.nil_append, List.getLastD_cons, List.getLastD_nil]
      rw [show chainNext m (a :: [x]) = ((align32 (m a) == x) && chainNext m [x]) from rfl,
          show chainNext m [x] = true from rfl, show chainNext m [a] = true from rfl]
      simp
  | a :: b :: l, x, d, _ => by
      simp only [List.cons_append]
      rw [show chainNext m (a :: b :: (l ++ [x])) =
            ((align32 (m a) == b) && chainNext m (b :: (l ++ [x]))) from rfl,
          show chainNext m (a :: b :: l) = ((align32 (m a) == b) && chainNext m (b :: l)) from rfl]
      have h := chainNext_concat m (b :: l) x d (by simp)
      simp only [List.cons_append] at h
      rw [h, Bool.and_assoc]
      simp only [List.getLastD_cons]

lemma find_prev_loop_spec (mem : Nat → Nat) (head target : Nat) :
    ∀ (p : List Nat) (cur s : Nat) (rest2 : List Nat) (fuel : Nat),
      chainNext mem (cur :: (p ++ s :: rest2)) = true →
      (s = head ∨ s = target) →
      (∀ x ∈ p, x ≠ head ∧ x ≠ target) →
      p.length ≤ fuel →
      find_prev_loop mem head target fuel cur = p.getLastD cur ∧
      align32 (mem (p.getLastD cur)) = s
  | [], cur, s, rest2, fuel, hch, hs, _, _ => by
      simp only [List.nil_append] at hch
      have hcs := (chainNext_cons mem cur s rest2).mp hch
      refine ⟨?_, by simpa using hcs.1⟩
      cases fuel with
      | zero => rfl
      | succ f =>
          rw [show find_prev_loop mem head target (f + 1) cur =
                (if align32 (mem cur) ≠ head ∧ align32 (mem cur) ≠ target then
                  find_prev_loop mem head target f (align32 (mem cur)) else cur) from rfl]
          rw [if_neg]
          · simp
          · rw [hcs.1]
            rcases hs with rfl | rfl
            · intro hc
              exact hc.1 rfl
            · intro hc
              exact hc.2 rfl
  | x :: p, cur, s, rest2, fuel, hch, hs, hnot, hf => by
      simp only [List.cons_append] at hch
      have hcs := (chainNext_cons mem cur x (p ++ s :: rest2)).mp hch
      have hx := hnot x (by simp)
      cases fuel with
      | zero => simp at hf
      | succ f =>
          have hrec := find_prev_loop_spec mem head target p x s rest2 f hcs.2 hs
            (fun y hy => hnot y (by simp [hy])) (by simpa using hf)
          rw [show find_prev_loop mem head target (f + 1) cur =
                (if align32 (mem cur) ≠ head ∧ align32 (mem cur) ≠ target then
                  find_prev_loop mem head target f (align32 (mem cur)) else cur) from rfl]
          rw [if_pos (by rw [hcs.1]; exact ⟨hx.1, hx.2⟩), hcs.1, List.getLastD_cons]
          exact hrec

lemma list_find_previous_some (mem : Nat → Nat) (head target : Nat)
    (r1 rest2 : List Nat) (fuel : Nat)
    (hch : chainNext mem (head :: (r1 ++ target :: rest2)) = true)
    (hth : target ≠ head)
    (hnot : ∀ x ∈ r1, x ≠ head ∧ x ≠ target)
    (hf : r1.length ≤ fuel) :
    list_find_previous_qhd mem head target fuel = some (r1.getLastD head) ∧
    align32 (mem (r1.getLastD head)) = target := by
  obtain ⟨h1, h2⟩ := find_prev_loop_spec mem head target r1 head target rest2 fuel hch
    (Or.inr rfl) hnot hf
  unfold list_find_previous_qhd
  rw [h1]
  rw [if_pos (by rw [h2]; exact hth)]
  exact ⟨rfl, h2⟩

lemma list_find_previous_none (mem : Nat → Nat) (head target : Nat)
    (p : List Nat) (fuel : Nat)
    (hch : chainNext mem (head :: (p ++ [head])) = true)
    (hnot : ∀ x ∈ p, x ≠ head ∧ x ≠ target)
    (hf : p.length ≤ fuel) :
    list_find_previous_qhd mem head target fuel = none := by
  obtain ⟨h1, h2⟩ := find_prev_loop_spec mem head target p head head [] fuel hch
    (Or.inl rfl) hnot hf
  unfold list_find_previous_qhd
  rw [h1]
  rw [if_neg]
  intro hc
  exact hc h2

lemma getLastD_cons_mem (b : Nat) (l' : List Nat) (d : Nat) :
    (b :: l').getLastD d ∈ b :: l' := by
  induction l' generalizing b d with
  | nil => simp [List.getLastD_cons]
  | cons c l'' ih =>
      rw [List.getLastD_cons]
      have := ih c b
      simp at this ⊢
      tauto

lemma getLastD_not_mem_dropLast (l : List Nat) (d : Nat) (h : l.Nodup) :
    ∀ x ∈ l.dropLast, x ≠ l.getLastD d := by
  induction l generalizing d with
  | nil => simp
  | cons a l ih =>
      rcases l with _ | ⟨b, l'⟩
      · simp
      · rw [List.getLastD_cons]
        intro x hx he
        rw [show (a :: b :: l').dropLast = a :: (b :: l').dropLast from rfl] at hx
        rcases List.mem_cons.mp hx with h1 | hx'
        · subst h1
          have hm := getLastD_cons_mem b l' x
          rw [← he] at hm
          exact (List.nodup_cons.mp h).1 hm
        · exact ih a ((List.nodup_cons.mp h).2) x hx' he

/-- C4: for every circular asynchronous list rooted at head that links a
target queue head, list_remove_qhd unlinks the target so that a subsequent
list_find_previous_qhd for it returns none, and rewrites the target's
forward link to point back at head with QHD element type. -/
theorem list_remove_qhd_unlinks (mem : Nat → Nat) (head target : Nat) (rest : List Nat)
    (fuel : Nat)
    (hch : chainNext mem (head :: rest ++ [head]) = true)
    (hnd : (head :: rest).Nodup)
    (ht : target ∈ rest)
    (hal : align32 head = head)
    (hf : rest.length ≤ fuel) :
    ∃ mem', list_remove_qhd mem head target fuel = some mem' ∧
      list_find_previous_qhd mem' head target fuel = none ∧
      align32 (mem' target) = head ∧
      link_type (mem' target) = EHCI_QUEUE_ELEMENT_QHD := by
  obtain ⟨r1, r2, hr⟩ := List.append_of_mem ht
  subst hr
  have hhead : head ∉ r1 ++ target :: r2 := (List.nodup_cons.mp hnd).1
  have hnd2 : (r1 ++ target :: r2).Nodup := (List.nodup_cons.mp hnd).2
  obtain ⟨hnd_r1, hnd_tr2, hdisj⟩ := List.nodup_append.mp hnd2
  have htnr1 : target ∉ r1 := fun hx => (hdisj hx) (by simp)
  have htnr2 : target ∉ r2 := (List.nodup_cons.mp hnd_tr2).1
  have hth : target ≠ head := by
    intro he
    exact hhead (by rw [← he]; simp)
  have hh_r1 : head ∉ r1 := fun hx => hhead (by simp [hx])
  have hh_r2 : head ∉ r2 := fun hx => hhead (by simp [hx])
  have hnot1 : ∀ x ∈ r1, x ≠ head ∧ x ≠ target := by
    intro x hx
    exact ⟨fun he => hh_r1 (he ▸ hx), fun he => htnr1 (he ▸ hx)⟩
  have hch' : chainNext mem (head :: (r1 ++ target :: (r2 ++ [head]))) = true := by
    simpa [List.append_assoc] using hch
  have hlen : r1.length ≤ fuel ∧ r1.length + r2.length ≤ fuel := by
    simp [List.length_append] at hf
    omega
  have hfind := list_find_previous_some mem head target r1 (r2 ++ [head]) fuel hch' hth
    hnot1 hlen.1
  set prev := r1.getLastD head with hprev
  have hprev_mem : prev = head ∨ prev ∈ r1 := by
    rcases r1 with _ | ⟨a, r1'⟩
    · left; rfl
    · right
      exact getLastD_cons_mem a r1' head
  have hpt : prev ≠ target := by
    rcases hprev_mem with h | h
    · rw [h]; exact fun he => hth he.symm
    · exact (hnot1 prev h).2
  set w := link_set_type head EHCI_QUEUE_ELEMENT_QHD with hw
  set mem' := Function.update (Function.update mem prev (mem target)) target w with hmem'
  have hm't : mem' target = w := Function.update_same _ _ _
  have hm'p : mem' prev = mem target := by
    rw [hmem', Function.update_noteq hpt, Function.update_same]
  have hm'other : ∀ x, x ≠ prev → x ≠ target → mem' x = mem x := by
    intro x h1 h2
    rw [hmem', Function.update_noteq h2, Function.update_noteq h1]
  -- split the original chain around target
  have hsplit : chainNext mem ((head :: r1) ++ target :: (r2 ++ [head])) = true := by
    simpa using hch'
  rw [chainNext_append] at hsplit
  obtain ⟨chainA, chainB⟩ := (Bool.and_eq_true _ _).mp hsplit
  have chain_int : chainNext mem (head :: r1) = true := by
    have := chainNext_concat mem (head :: r1) target head (by simp)
    rw [this] at chainA
    exact ((Bool.and_eq_true _ _).mp chainA).1
  have hnd_hr1 : (head :: r1).Nodup := by
    rw [List.nodup_cons]
    exact ⟨hh_r1, hnd_r1⟩
  -- the interior of head :: r1 is untouched by the removal
  have hint_new : chainNext mem' (head :: r1) = true := by
    rw [chainNext_congr_dropLast mem' mem (head :: r1) ?_]
    · exact chain_int
    · intro x hx
      have hxm : x ∈ head :: r1 := List.dropLast_subset _ hx
      have hxt : x ≠ target := by
        rcases List.mem_cons.mp hxm with rfl | hxr
        · exact fun he => hth he.symm
        · exact (hnot1 x hxr).2
      have hxp : x ≠ prev := by
        have := getLastD_not_mem_dropLast (head :: r1) head hnd_hr1 x hx
        rw [List.getLastD_cons] at this
        exact this
      exact hm'other x hxp hxt
  -- the new circular chain skips target
  have hnew : chainNext mem' (head :: ((r1 ++ r2) ++ [head])) = true := by
    rcases r2 with _ | ⟨c, r2'⟩
    · -- two-node case: target linked straight back to head
      have hBt : align32 (mem target) = head := by
        have := (chainNext_cons mem target head []).mp (by simpa using chainB)
        exact this.1
      have hcct := chainNext_concat mem' (head :: r1) head head (by simp)
      rw [show head :: ((r1 ++ []) ++ [head]) = (head :: r1) ++ [head] by simp]
      rw [hcct, hint_new, List.getLastD_cons, ← hprev, hm'p, hBt]
      simp
    · -- general case: prev now links to c, the node after target
      have hBt := (chainNext_cons mem target c (r2' ++ [head])).mp (by simpa using chainB)
      have chainC : chainNext mem' (c :: (r2' ++ [head])) = true := by
        rw [chainNext_congr_dropLast mem' mem (c :: (r2' ++ [head])) ?_]
        · exact hBt.2
        · intro x hx
          have hxm : x ∈ c :: r2' := by
            have : (c :: (r2' ++ [head])).dropLast = c :: r2' := by
              rw [show c :: (r2' ++ [head]) = (c :: r2') ++ [head] by simp]
              exact List.dropLast_concat
            rwa [this] at hx
          have hxr2 : x ∈ c :: r2' := hxm
          have hxt : x ≠ target := fun he => htnr2 (he ▸ hxr2)
          have hxh : x ≠ head := fun he => hh_r2 (he ▸ hxr2)
          have hxp : x ≠ prev := by
            rcases hprev_mem with h | h
            · rw [h]; exact hxh
            · intro he
              exact (hdisj (he ▸ h)) (by simp [hxr2])
          exact hm'other x hxp hxt
      have hfirst : chainNext mem' ((head :: r1) ++ [c]) = true := by
        have hcct := chainNext_concat mem' (head :: r1) c head (by simp)
        rw [hcct, hint_new, List.getLastD_cons, ← hprev, hm'p, hBt.1]
        simp
      have := chainNext_append mem' (head :: r1) c (r2' ++ [head])
      rw [show head :: ((r1 ++ c :: r2') ++ [head]) = (head :: r1) ++ c :: (r2' ++ [head]) by
            simp]
      rw [this, hfirst, chainC]
      simp
  refine ⟨mem', ?_, ?_, ?_, ?_⟩
  · unfold list_remove_qhd
    rw [hfind.1]
  · apply list_find_previous_none mem' head target (r1 ++ r2) fuel
    · simpa using hnew
    · intro x hx
      rcases List.mem_append.mp hx with hx1 | hx2
      · exact hnot1 x hx1
      · exact ⟨fun he => hh_r2 (he ▸ hx2), fun he => htnr2 (he ▸ hx2)⟩
    · simpa using hlen.2
  · rw [hm't, hw]
    exact (link_set_type_aligned head hal).1
  · rw [hm't, hw]
    exact (link_set_type_aligned head hal).2

lemma poll_exit_spec (cont : Nat → Bool) :
    ∀ (fuel k : Nat),
      (∀ j, k ≤ j → j < poll_exit cont fuel k → cont j = true) ∧
      (poll_exit cont fuel k = k + fuel ∨ cont (poll_exit cont fuel k) = false) ∧
      k ≤ poll_exit cont fuel k
  | 0, k => by
      refine ⟨fun j hj hj2 => absurd (lt_of_le_of_lt hj hj2) (by simp [poll_exit]), ?_, ?_⟩
      · left
        simp [poll_exit]
      · simp [poll_exit]
  | fuel + 1, k => by
      rcases hc : cont k with hf | ht
      · rw [show poll_exit cont (fuel + 1) k = (if cont k then poll_exit cont fuel (k + 1)
              else k) from rfl, hc]
        refine ⟨fun j hj hj2 => absurd (lt_of_le_of_lt hj hj2) (by simp), Or.inr ?_, le_refl k⟩
        simpa using hc
      · obtain ⟨ih1, ih2, ih3⟩ := poll_exit_spec cont fuel (k + 1)
        rw [show poll_exit cont (fuel + 1) k = (if cont k then poll_exit cont fuel (k + 1)
              else k) from rfl, hc]
        simp only [if_true]
        refine ⟨?_, ?_, by omega⟩
        · intro j hj hj2
          rcases Nat.eq_or_lt_of_le hj with rfl | hlt
          · exact hc
          · exact ih1 j hlt hj2
        · rcases ih2 with h | h
          · left
            omega
          · right
            exact h

/-- Shared wait-loop argument for hcd_controller_stop and hcd_controller_reset:
polling continues only while the hardware condition b holds and fewer than 2
frames have elapsed, and the loop exits on the hardware condition clearing or
on timeout. -/
lemma wait_loop_spec (b : Nat → Bool) (elapsed : Nat → Nat) (fuel K : Nat)
    (hK2 : 2 ≤ elapsed K) (hfuel : K < fuel) :
    (∀ j < poll_exit (fun k => b k && !timeout_expired elapsed k) fuel 0,
        b j = true ∧ elapsed j < 2) ∧
    (b (poll_exit (fun k => b k && !timeout_expired elapsed k) fuel 0) = false ∨
      2 ≤ elapsed (poll_exit (fun k => b k && !timeout_expired elapsed k) fuel 0)) := by
  set cont := fun k => b k && !timeout_expired elapsed k with hcont
  obtain ⟨h1, h2, _⟩ := poll_exit_spec cont fuel 0
  have hcj : ∀ j, cont j = true → b j = true ∧ elapsed j < 2 := by
    intro j hj
    rw [hcont] at hj
    simp only [Bool.and_eq_true, Bool.not_eq_true'] at hj
    refine ⟨hj.1, ?_⟩
    have := hj.2
    simp [timeout_expired] at this
    omega
  have hKf : cont K = false := by
    rw [hcont]
    simp [timeout_expired, hK2]
  constructor
  · intro j hj
    exact hcj j (h1 j (Nat.zero_le j) hj)
  · rcases h2 with h | h
    · exfalso
      have : cont K = true := h1 K (Nat.zero_le K) (by omega)
      rw [this] at hKf
      exact Bool.true_eq_false.mp hKf
    · rw [hcont] at h
      simp only [Bool.and_eq_false_iff] at h
      rcases h with h | h
      · exact Or.inl h
      · right
        have h' : timeout_expired elapsed
            (poll_exit (fun k => b k && !timeout_expired elapsed k) fuel 0) = true := by
          simpa using h
        simpa [timeout_expired] using h'

/-- C7: hcd_controller_stop and hcd_controller_reset each poll only while
the hardware condition persists and fewer than 2 frames have elapsed (the
2-frame budget of the timeout timer), exit on the condition clearing or on
expiry, and return TUSB_ERROR_OSAL_TIMEOUT exactly when the 2-frame timeout
has expired at the exit poll, TUSB_ERROR_NONE otherwise. -/
theorem hcd_controller_stop_reset_timeout (hc_halted reset_bit : Nat → Bool)
    (elapsed : Nat → Nat) (fuel K : Nat)
    (hK2 : 2 ≤ elapsed K) (hfuel : K < fuel) :
    ((∀ j < hcd_controller_stop_exit hc_halted elapsed fuel,
        hc_halted j = false ∧ elapsed j < 2) ∧
      hcd_controller_stop hc_halted elapsed fuel =
        (if 2 ≤ elapsed (hcd_controller_stop_exit hc_halted elapsed fuel) then
          TUSB_ERROR_OSAL_TIMEOUT else TUSB_ERROR_NONE) ∧
      (hc_halted (hcd_controller_stop_exit hc_halted elapsed fuel) = true ∨
        2 ≤ elapsed (hcd_controller_stop_exit hc_halted elapsed fuel))) ∧
    ((∀ j < hcd_controller_reset_exit reset_bit elapsed fuel,
        reset_bit j = true ∧ elapsed j < 2) ∧
      hcd_controller_reset reset_bit elapsed fuel =
        (if 2 ≤ elapsed (hcd_controller_reset_exit reset_bit elapsed fuel) then
          TUSB_ERROR_OSAL_TIMEOUT else TUSB_ERROR_NONE) ∧
      (reset_bit (hcd_controller_reset_exit reset_bit elapsed fuel) = false ∨
        2 ≤ elapsed (hcd_controller_reset_exit reset_bit elapsed fuel))) := by
  obtain ⟨hs1, hs2⟩ := wait_loop_spec (fun k => !hc_halted k) elapsed fuel K hK2 hfuel
  obtain ⟨hr1, hr2⟩ := wait_loop_spec reset_bit elapsed fuel K hK2 hfuel
  refine ⟨⟨?_, ?_, ?_⟩, ⟨?_, ?_, ?_⟩⟩
  · intro j hj
    have := hs1 j hj
    exact ⟨by simpa using this.1, this.2⟩
  · unfold hcd_controller_stop
    by_cases h : 2 ≤ elapsed (hcd_controller_stop_exit hc_halted elapsed fuel)
    · simp [timeout_expired, h]
    · simp [timeout_expired, h]
  · rcases hs2 with h | h
    · exact Or.inl (by simpa using h)
    · exact Or.inr h
  · intro j hj
    exact hr1 j hj
  · unfold hcd_controller_reset
    by_cases h : 2 ≤ elapsed (hcd_controller_reset_exit reset_bit elapsed fuel)
    · simp [timeout_expired, h]
    · simp [timeout_expired, h]
  · exact hr2

lemma qhd_init_device_address (p : ehci_qhd_t) (d m e x : Nat) (dev : usbh_device_t) :
    (qhd_init p d m e x dev).device_address = d := by
  unfold qhd_init
  dsimp only
  split <;> rfl

lemma qhd_get_index_congr (baseQ : Fin TUSB_CFG_HOST_DEVICE_MAX → Nat)
    (q : ehci_qhd_t) (q_addr d : Nat) (h : q.device_address = d)
    (hd : d - 1 < TUSB_CFG_HOST_DEVICE_MAX) :
    qhd_get_index baseQ q q_addr = (q_addr - baseQ ⟨d - 1, hd⟩) / sizeof_ehci_qhd := by
  subst h
  unfold qhd_get_index
  rw [dif_pos hd]

/-- C9: every successful hcd_pipe_open returns a non-null handle that
round-trips: the handle's index is the pointer-arithmetic qhd_get_index of
the allocated queue head, and qhd_get_from_pipe_handle on the returned
state yields exactly the queue head slot the call allocated and
initialized. -/
theorem hcd_pipe_open_roundtrip (baseQ : Fin TUSB_CFG_HOST_DEVICE_MAX → Nat)
    (st : Fin TUSB_CFG_HOST_DEVICE_MAX → ehci_device_t) (usb_dev : usbh_device_t)
    (dev_addr : Nat) (ep : tusb_descriptor_endpoint_t) (class_code aw pw : Nat)
    (i : Fin EHCI_MAX_QHD)
    (h0 : ¬ dev_addr = 0) (hd : dev_addr - 1 < TUSB_CFG_HOST_DEVICE_MAX)
    (hiso : ¬ ep.bmAttributes_xfer = TUSB_XFER_ISOCHRONOUS)
    (hfree : qhd_find_free (st ⟨dev_addr - 1, hd⟩) = some i) :
    (hcd_pipe_open baseQ st usb_dev dev_addr ep class_code aw pw).1.dev_addr = dev_addr ∧
    (hcd_pipe_open baseQ st usb_dev dev_addr ep class_code aw pw).1.index = i.val ∧
    qhd_get_from_pipe_handle (hcd_pipe_open baseQ st usb_dev dev_addr ep class_code aw pw).2
        (hcd_pipe_open baseQ st usb_dev dev_addr ep class_code aw pw).1 =
      some (((hcd_pipe_open baseQ st usb_dev dev_addr ep class_code aw pw).2
        ⟨dev_addr - 1, hd⟩).qhd i) := by
  have key : ∀ (q : ehci_qhd_t), q.device_address = dev_addr →
      qhd_get_index baseQ q (baseQ ⟨dev_addr - 1, hd⟩ + sizeof_ehci_qhd * i.val) = i.val := by
    intro q hq
    rw [qhd_get_index_congr baseQ q _ dev_addr hq hd]
    rw [Nat.add_sub_cancel_left, show sizeof_ehci_qhd = 64 from rfl]
    exact Nat.mul_div_cancel_left i.val (by norm_num)
  unfold hcd_pipe_open
  rw [if_neg h0, if_neg hiso, dif_pos hd]
  dsimp only
  rw [hfree]
  dsimp only
  generalize hq : qhd_init ((st ⟨dev_addr - 1, hd⟩).qhd i) dev_addr ep.wMaxPacketSize_size
    ep.bEndpointAddress ep.bmAttributes_xfer usb_dev = Q
  have hQda : Q.device_address = dev_addr := by
    rw [← hq]
    exact qhd_init_device_address _ _ _ _ _ _
  have hidx := key
    { Q with
      class_code := class_code,
      next := if ep.bmAttributes_xfer = TUSB_XFER_BULK then aw
              else if ep.bmAttributes_xfer = TUSB_XFER_INTERRUPT then pw else 0 }
    hQda
  rw [hidx]
  refine ⟨rfl, rfl, ?_⟩
  unfold qhd_get_from_pipe_handle
  dsimp only
  rw [dif_pos hd, dif_pos i.isLt]

/-- C1 witness: the three-phase layout evaluated at a concrete GET-style
request with wLength 18. -/
theorem hcd_pipe_control_xfer_three_phase_witness :
    (⟨1, 18⟩ : tusb_std_request_t).wLength > 0 ∧
    (let r := hcd_pipe_control_xfer (fun j => 8192 + 32 * j.val) ⟨1, 18⟩ 100 200
        c0_control_state
     (r.qtd3 0).pid = EHCI_PID_SETUP ∧ (r.qtd3 0).data_toggle = 0 ∧
     (r.qtd3 0).total_bytes = 8 ∧
     (r.qtd3 1).data_toggle = 1 ∧
     (r.qtd3 1).pid = (if (⟨1, 18⟩ : tusb_std_request_t).bmRequestType_direction ≠ 0
        then EHCI_PID_IN else EHCI_PID_OUT) ∧
     (r.qtd3 2).total_bytes = 0 ∧ (r.qtd3 2).data_toggle = 1 ∧
     (r.qtd3 2).pid = (if (⟨1, 18⟩ : tusb_std_request_t).bmRequestType_direction ≠ 0
        then EHCI_PID_OUT else EHCI_PID_IN) ∧
     (r.qtd3 2).int_on_complete = 1 ∧ link_terminate ((r.qtd3 2).next) = 1 ∧
     r.qhd.qtd_overlay.next = (fun j : Fin 3 => 8192 + 32 * j.val) 0) :=
  ⟨by decide, hcd_pipe_control_xfer_three_phase (fun j => 8192 + 32 * j.val) ⟨1, 18⟩
    100 200 c0_control_state (by decide)⟩

/-- C10 witness: the two-phase layout evaluated at a concrete zero-length
request. -/
theorem hcd_pipe_control_xfer_no_data_phase_witness :
    (⟨0, 0⟩ : tusb_std_request_t).wLength = 0 ∧
    (let r := hcd_pipe_control_xfer (fun j => 8192 + 32 * j.val) ⟨0, 0⟩ 100 200
        c0_control_state
     (r.qtd3 0).next = (fun j : Fin 3 => 8192 + 32 * j.val) 2 ∧
     r.qhd.p_qtd_list_head = some ((fun j : Fin 3 => 8192 + 32 * j.val) 0) ∧
     r.qhd.p_qtd_list_tail = some ((fun j : Fin 3 => 8192 + 32 * j.val) 2) ∧
     r.qtd3 1 = c0_control_state.qtd3 1) :=
  ⟨by decide, hcd_pipe_control_xfer_no_data_phase (fun j => 8192 + 32 * j.val) ⟨0, 0⟩
    100 200 c0_control_state (by decide)⟩

/-- C2 witness: the amended claim evaluated at a concrete head address,
max packet size 8 and a concrete removal-pending state. -/
theorem hcd_pipe_control_open_addr0_spec_witness :
    c2_isr_state.async_head.is_removing ≠ 0 ∧
    ((hcd_pipe_control_open_addr0 (async_head_after_controller_init 4096) 8
        ⟨0, 0, 0, 0, 0⟩).head_list_flag = 1 ∧
     (hcd_pipe_control_open_addr0 (async_head_after_controller_init 4096) 8
        ⟨0, 0, 0, 0, 0⟩).qtd_overlay.halted = 0 ∧
     (async_advance_isr c2_isr_state).async_head.qtd_overlay.halted = 1) :=
  ⟨by decide, hcd_pipe_control_open_addr0_spec 4096 8 ⟨0, 0, 0, 0, 0⟩ c2_isr_state
    (by decide)⟩

/-- C3 witness: the amended claim evaluated at a concrete state whose
device slot 0 has its control queue head pending removal. -/
theorem async_advance_isr_control_removal_witness :
    ((c3w_state.device ⟨0, by decide⟩).control_qhd.is_removing ≠ 0) ∧
    (((async_advance_isr c3w_state).device ⟨0, by decide⟩).control_qhd.used = 0 ∧
     ((async_advance_isr c3w_state).device ⟨0, by decide⟩).control_qhd.is_removing = 0 ∧
     ((async_advance_isr c3w_state).usbh_devices
        ⟨(⟨0, by decide⟩ : Fin TUSB_CFG_HOST_DEVICE_MAX).val + 1, by omega⟩).state
       = TUSB_DEVICE_STATE_UNPLUG ∧
     (∀ i, (((async_advance_isr c3w_state).device ⟨0, by decide⟩).qhd i).used = 0) ∧
     (∀ i, (((async_advance_isr c3w_state).device ⟨0, by decide⟩).qtd i).used = 0)) :=
  ⟨by decide, async_advance_isr_control_removal c3w_state ⟨0, by decide⟩ (by decide)⟩

/-- C4 witness: removal and re-lookup evaluated on a concrete two-element
circular list. -/
theorem list_remove_qhd_unlinks_witness :
    chainNext c4_mem (4096 :: [4128] ++ [4096]) = true ∧
    (4096 :: [4128]).Nodup ∧ (4128 ∈ ([4128] : List Nat)) ∧ align32 4096 = 4096 ∧
    ([4128] : List Nat).length ≤ 1 ∧
    (∃ mem', list_remove_qhd c4_mem 4096 4128 1 = some mem' ∧
      list_find_previous_qhd mem' 4096 4128 1 = none ∧
      align32 (mem' 4128) = 4096 ∧
      link_type (mem' 4128) = EHCI_QUEUE_ELEMENT_QHD) :=
  ⟨by decide, by decide, by decide, by decide, by decide,
    list_remove_qhd_unlinks c4_mem 4096 4128 [4128] 1 (by decide) (by decide) (by decide)
      (by decide) (by decide)⟩

/-- C5 witness: qtd_init evaluated at data pointer 4096 and length 16. -/
theorem qtd_init_spec_witness :
    4096 < UINT32_MOD ∧ 16 ≤ 20480 ∧
    ((qtd_init 4096 16).used = 1 ∧ (qtd_init 4096 16).active = 1 ∧
     (qtd_init 4096 16).cerr = 3 ∧
     (qtd_init 4096 16).total_bytes = 16 ∧ (qtd_init 4096 16).buffer 0 = 4096 ∧
     ∀ (iv : Nat) (h1 : 1 ≤ iv) (h4 : iv ≤ 4),
       (qtd_init 4096 16).buffer ⟨iv, by omega⟩ =
         (align4k ((qtd_init 4096 16).buffer ⟨iv - 1, by omega⟩) + 4096) % UINT32_MOD) :=
  ⟨by decide, by decide, qtd_init_spec 4096 16 (by decide) (by decide)⟩

/-- C7 witness: both wait loops evaluated with a never-halting,
never-clearing controller and a frame counter that expires at poll 2. -/
theorem hcd_controller_stop_reset_timeout_witness :
    2 ≤ (fun k : Nat => k) 2 ∧ 2 < 4 ∧
    (((∀ j < hcd_controller_stop_exit (fun _ => false) (fun k => k) 4,
        (fun _ : Nat => false) j = false ∧ (fun k : Nat => k) j < 2) ∧
      hcd_controller_stop (fun _ => false) (fun k => k) 4 =
        (if 2 ≤ (fun k : Nat => k) (hcd_controller_stop_exit (fun _ => false) (fun k => k) 4)
          then TUSB_ERROR_OSAL_TIMEOUT else TUSB_ERROR_NONE) ∧
      ((fun _ : Nat => false) (hcd_controller_stop_exit (fun _ => false) (fun k => k) 4)
          = true ∨
        2 ≤ (fun k : Nat => k) (hcd_controller_stop_exit (fun _ => false) (fun k => k) 4))) ∧
     ((∀ j < hcd_controller_reset_exit (fun _ => true) (fun k => k) 4,
        (fun _ : Nat => true) j = true ∧ (fun k : Nat => k) j < 2) ∧
      hcd_controller_reset (fun _ => true) (fun k => k) 4 =
        (if 2 ≤ (fun k : Nat => k) (hcd_controller_reset_exit (fun _ => true) (fun k => k) 4)
          then TUSB_ERROR_OSAL_TIMEOUT else TUSB_ERROR_NONE) ∧
      ((fun _ : Nat => true) (hcd_controller_reset_exit (fun _ => true) (fun k => k) 4)
          = false ∨
        2 ≤ (fun k : Nat => k) (hcd_controller_reset_exit (fun _ => true) (fun k => k) 4)))) :=
  ⟨by decide, by decide, hcd_controller_stop_reset_timeout (fun _ => false) (fun _ => true)
    (fun k => k) 4 2 (by decide) (by decide)⟩

/-- C8 witness: hcd_pipe_xfer evaluated on a concrete high-speed bulk OUT
queue head with a free qTD pool. -/
theorem hcd_pipe_xfer_hs_bulk_out_ping_witness :
    (⟨1, TUSB_XFER_BULK, 0⟩ : pipe_handle_t).index < EHCI_MAX_QHD ∧
    qtd_find_free c8_dev = some ⟨0, by decide⟩ ∧
    ((hcd_pipe_xfer (fun i => 4096 + 32 * i.val) c8_dev ⟨1, TUSB_XFER_BULK, 0⟩ 256 512
        true).1 = TUSB_ERROR_NONE ∧
     (((hcd_pipe_xfer (fun i => 4096 + 32 * i.val) c8_dev ⟨1, TUSB_XFER_BULK, 0⟩ 256 512
        true).2.qhd ⟨(⟨1, TUSB_XFER_BULK, 0⟩ : pipe_handle_t).index, by decide⟩).p_qtd_list_tail
        = some ((fun i : Fin EHCI_MAX_QTD => 4096 + 32 * i.val) ⟨0, by decide⟩)) ∧
     (((hcd_pipe_xfer (fun i => 4096 + 32 * i.val) c8_dev ⟨1, TUSB_XFER_BULK, 0⟩ 256 512
        true).2.qtd ⟨0, by decide⟩).pid
        = (c8_dev.qhd ⟨(⟨1, TUSB_XFER_BULK, 0⟩ : pipe_handle_t).index,
            by decide⟩).pid_non_control) ∧
     (((hcd_pipe_xfer (fun i => 4096 + 32 * i.val) c8_dev ⟨1, TUSB_XFER_BULK, 0⟩ 256 512
        true).2.qtd ⟨0, by decide⟩).pingstate_err =
      if (⟨1, TUSB_XFER_BULK, 0⟩ : pipe_handle_t).xfer_type = TUSB_XFER_BULK ∧
         (c8_dev.qhd ⟨(⟨1, TUSB_XFER_BULK, 0⟩ : pipe_handle_t).index,
            by decide⟩).endpoint_speed = TUSB_SPEED_HIGH ∧
         (c8_dev.qhd ⟨(⟨1, TUSB_XFER_BULK, 0⟩ : pipe_handle_t).index,
            by decide⟩).pid_non_control = EHCI_PID_OUT then 1 else 0)) :=
  ⟨by decide, by decide, hcd_pipe_xfer_hs_bulk_out_ping (fun i => 4096 + 32 * i.val) c8_dev
    ⟨1, TUSB_XFER_BULK, 0⟩ 256 512 true ⟨0, by decide⟩ (by decide) (by decide)⟩

/-- C9 witness: hcd_pipe_open evaluated on a concrete bulk IN endpoint of
device address 1. -/
theorem hcd_pipe_open_roundtrip_witness :
    (¬ (1 : Nat) = 0) ∧ ((1 : Nat) - 1 < TUSB_CFG_HOST_DEVICE_MAX) ∧
    (¬ (⟨129, TUSB_XFER_BULK, 64⟩ : tusb_descriptor_endpoint_t).bmAttributes_xfer
        = TUSB_XFER_ISOCHRONOUS) ∧
    qhd_find_free (c9_st ⟨1 - 1, by decide⟩) = some ⟨0, by decide⟩ ∧
    ((hcd_pipe_open c9_baseQ c9_st ⟨0, TUSB_SPEED_HIGH, 0, 0, 0⟩ 1
        ⟨129, TUSB_XFER_BULK, 64⟩ 8 7777 8888).1.dev_addr = 1 ∧
     (hcd_pipe_open c9_baseQ c9_st ⟨0, TUSB_SPEED_HIGH, 0, 0, 0⟩ 1
        ⟨129, TUSB_XFER_BULK, 64⟩ 8 7777 8888).1.index
       = (⟨0, by decide⟩ : Fin EHCI_MAX_QHD).val ∧
     qhd_get_from_pipe_handle
        (hcd_pipe_open c9_baseQ c9_st ⟨0, TUSB_SPEED_HIGH, 0, 0, 0⟩ 1
          ⟨129, TUSB_XFER_BULK, 64⟩ 8 7777 8888).2
        (hcd_pipe_open c9_baseQ c9_st ⟨0, TUSB_SPEED_HIGH, 0, 0, 0⟩ 1
          ⟨129, TUSB_XFER_BULK, 64⟩ 8 7777 8888).1 =
      some (((hcd_pipe_open c9_baseQ c9_st ⟨0, TUSB_SPEED_HIGH, 0, 0, 0⟩ 1
          ⟨129, TUSB_XFER_BULK, 64⟩ 8 7777 8888).2 ⟨1 - 1, by decide⟩).qhd
        ⟨0, by decide⟩)) :=
  ⟨by decide, by decide, by decide, by decide,
    hcd_pipe_open_roundtrip c9_baseQ c9_st ⟨0, TUSB_SPEED_HIGH, 0, 0, 0⟩ 1
      ⟨129, TUSB_XFER_BULK, 64⟩ 8 7777 8888 ⟨0, by decide⟩ (by decide) (by decide)
      (by decide) (by decide)⟩
